import Mathlib

/-!
Shallow embedding of the credit-scoring engine in
`src/services/credit_scoring_service.py` (class `CreditScoringService`),
together with theorems checking the natural-language specification against it.

Modelling conventions:
* Python floats are modelled as exact rationals (`ℚ`); the decimal literals of
  the source (bin thresholds, bucket boundaries) are taken at their decimal
  value.  Unix timestamps are modelled as `ℤ` seconds.
* A feature dictionary is modelled as a structure whose fields are `Option ℚ`;
  `none` models a key that is absent from the dict, so `dict.get(k, d)`
  becomes `Option.getD` with the source's default `d`.
* pandas `NaN`/`NaT` (a field absent from a record, or unparsable) is
  modelled as `none` in the per-record `Option` fields of `RawTx`.
-/

/-- One raw Etherscan transaction record (§6 of the spec; the dict consumed by
`extract_features` / `extract_time_series_data`).  Each field is `Option`:
`none` models the key being absent from that record, which pandas turns into
`NaN`/`NaT` after the column-level coercions of lines 42-54.  Field names
follow the source columns: `fromAddr` is the `from` column and `toAddr` the
`to` column (`from` is reserved in Lean), `input` is the `input` column. -/
structure RawTx where
  timeStamp : Option ℤ
  value : Option ℚ
  fromAddr : Option String
  toAddr : Option String
  input : Option String
  isError : Option ℚ
  contractAddress : Option String
  gasPrice : Option ℚ
  deriving DecidableEq, Repr

/-- `pd.DataFrame(transactions)` materialises a column exactly when some record
carries the key; `txs.any` over one field models `col in df.columns`. -/
def colTimeStamp (txs : List RawTx) : Bool := txs.any (fun tx => tx.timeStamp.isSome)

def colValue (txs : List RawTx) : Bool := txs.any (fun tx => tx.value.isSome)

def colFrom (txs : List RawTx) : Bool := txs.any (fun tx => tx.fromAddr.isSome)

def colTo (txs : List RawTx) : Bool := txs.any (fun tx => tx.toAddr.isSome)

def colInput (txs : List RawTx) : Bool := txs.any (fun tx => tx.input.isSome)

def colIsError (txs : List RawTx) : Bool := txs.any (fun tx => tx.isError.isSome)

def colContractAddress (txs : List RawTx) : Bool := txs.any (fun tx => tx.contractAddress.isSome)

def colGasPrice (txs : List RawTx) : Bool := txs.any (fun tx => tx.gasPrice.isSome)

/-- Whether the DataFrame built from `txs` has at least one column. -/
def anyColumn (txs : List RawTx) : Bool :=
  colTimeStamp txs || colValue txs || colFrom txs || colTo txs ||
  colInput txs || colIsError txs || colContractAddress txs || colGasPrice txs

/-- `df.empty` is true when either axis has length 0: no rows (empty input
list) or no columns (every record is an empty dict). -/
def dfEmpty (txs : List RawTx) : Bool := txs.isEmpty || !anyColumn txs

/-- The feature dictionary consumed by the two scoring routines
(lines 422-599).  Each field is one key the source reads with
`features.get`; `none` models the key being absent. -/
structure Features where
  account_age_days : Option ℚ := none
  total_transactions : Option ℚ := none
  avg_tx_per_month : Option ℚ := none
  total_eth_sent : Option ℚ := none
  total_eth_received : Option ℚ := none
  unique_counterparties : Option ℚ := none
  counterparty_entropy : Option ℚ := none
  contract_interactions : Option ℚ := none
  days_since_last_tx : Option ℚ := none
  failed_tx_ratio : Option ℚ := none
  avg_tx_value : Option ℚ := none
  tx_count_6m : Option ℚ := none
  largest_outgoing_tx : Option ℚ := none
  months_with_tx : Option ℚ := none
  tx_value_skewness : Option ℚ := none
  deriving DecidableEq, Repr

/-- `if not features:` — the dict is empty (all keys absent). -/
def featIsEmpty (f : Features) : Bool :=
  f.account_age_days.isNone && f.total_transactions.isNone && f.avg_tx_per_month.isNone &&
  f.total_eth_sent.isNone && f.total_eth_received.isNone && f.unique_counterparties.isNone &&
  f.counterparty_entropy.isNone && f.contract_interactions.isNone &&
  f.days_since_last_tx.isNone && f.failed_tx_ratio.isNone && f.avg_tx_value.isNone &&
  f.tx_count_6m.isNone && f.largest_outgoing_tx.isNone && f.months_with_tx.isNone &&
  f.tx_value_skewness.isNone

/-- Lines 504-505: `account_age_days / 30.0 if account_age_days > 0 else 0.0`. -/
def monthsOfDays (v : ℚ) : ℚ := if v > 0 then v / 30 else 0

/-- Lines 506-511: account-age bin points, keyed on months. -/
def binAccountAgeMonths (m : ℚ) : ℚ :=
  if m < 18 then 54 else if m < 54 then 57 else 88

/-- Account-age scorecard component (lines 503-511). -/
def binAccountAge (v : ℚ) : ℚ := binAccountAgeMonths (monthsOfDays v)

/-- Lines 513-522: `avg_tx_value` bin points. -/
def binAvgTxValue (v : ℚ) : ℚ :=
  if v < 6/10000 then 25 else if v < 181/10000 then 45
  else if v < 41449/10000 then 64 else 77

/-- Lines 524-531: `tx_count_6m` bin points. -/
def binTxCount6m (v : ℚ) : ℚ :=
  if v < 1 then 57 else if v < 3 then 93 else 131

/-- Lines 533-540: `unique_counterparties` bin points. -/
def binUniqueCps (v : ℚ) : ℚ :=
  if v < 8 then 49 else if v < 1881 then 60 else 78

/-- Lines 542-553: `contract_interactions` bin points. -/
def binContract (v : ℚ) : ℚ :=
  if v < 2 then 36 else if v < 19 then 51 else if v < 83 then 66
  else if v < 1974 then 74 else 84

/-- Lines 555-562: `largest_outgoing_tx` bin points. -/
def binLargestOut (v : ℚ) : ℚ :=
  if v < 128/10 then 57 else if v < 2062/10 then 62 else 70

/-- Lines 564-573: `months_with_tx` bin points. -/
def binMonthsWithTx (v : ℚ) : ℚ :=
  if v < 18 then 59 else if v < 37 then 66 else if v < 67 then 68 else 77

/-- Lines 575-586: `tx_value_skewness` bin points; `features.get` without a
default returns `None` when the key is absent, handled by the first branch. -/
def binSkewness : Option ℚ → ℚ
  | none => 46
  | some v =>
    if v < 45473/10000 then 51 else if v < 146823/10000 then 62
    else if v < 663151/10000 then 67 else 72

/-- Lines 588-597: `total_transactions` bin points. -/
def binTotalTx (v : ℚ) : ℚ :=
  if v < 19 then 44 else if v < 2508 then 59 else if v < 4594 then 61 else 71

/-- Lines 496-599: the scorecard evaluator — nine ordered-bin lookups added
into a running score, in source order. -/
def calculate_scorecard_credit_score (f : Features) : ℚ :=
  binAccountAge (f.account_age_days.getD 0)
  + binAvgTxValue (f.avg_tx_value.getD 0)
  + binTxCount6m (f.tx_count_6m.getD 0)
  + binUniqueCps (f.unique_counterparties.getD 0)
  + binContract (f.contract_interactions.getD 0)
  + binLargestOut (f.largest_outgoing_tx.getD 0)
  + binMonthsWithTx (f.months_with_tx.getD 0)
  + binSkewness f.tx_value_skewness
  + binTotalTx (f.total_transactions.getD 0)

/-- The feature set of the spec's scorecard scenario (§8). -/
def scenarioFeatures : Features :=
  { account_age_days := some 600
    avg_tx_value := some (2/100)
    tx_count_6m := some 5
    unique_counterparties := some 10
    contract_interactions := some 3
    largest_outgoing_tx := some 50
    months_with_tx := some 20
    tx_value_skewness := some 10
    total_transactions := some 100 }

/-- A feature set landing in the top bin of all nine features. -/
def maxBinFeatures : Features :=
  { account_age_days := some 30000
    avg_tx_value := some 100
    tx_count_6m := some 1000
    unique_counterparties := some 10000
    contract_interactions := some 10000
    largest_outgoing_tx := some 1000
    months_with_tx := some 100
    tx_value_skewness := some 100
    total_transactions := some 10000 }

/-- The empty feature dictionary. -/
def emptyFeatures : Features := {}

/-- The optional `card_info` dict of `calculate_credit_score` (lines 486-491);
`none` fields model absent keys, checked by `in card_info` in the source. -/
structure CardInfo where
  card_credit_score : Option ℚ := none
  card_zscore_reputation_score : Option ℚ := none
  deriving DecidableEq, Repr

/-- Lines 468-475: recent-activity bonus keyed on `days_since_last_tx`. -/
def recentActivityBonus (d : ℚ) : ℚ :=
  if d < 30 then 50 else if d < 90 then 30 else if d < 180 then 10 else 0

/-- Lines 486-491: Etherscan card bonus; `if card_info:` skips a missing dict,
and each key contributes only when present. -/
def cardBonus : Option CardInfo → ℚ
  | none => 0
  | some c =>
    (match c.card_credit_score with | some v => v / 10 | none => 0)
    + (match c.card_zscore_reputation_score with | some v => v / 5 | none => 0)

/-- Lines 443-494 of `calculate_credit_score`: the running `score` after every
component has been added and the final 0-1000 clamp applied.  The
ETH-volume component uses `math.log1p`, so this value lives in `ℝ`.  The
source computes this value into a local variable and then falls off the end
of the function without returning it. -/
noncomputable def legacy_score_value (f : Features) (cardInfo : Option CardInfo) : ℝ :=
  let score : ℝ :=
    min 200 (((f.account_age_days.getD 0 : ℚ) : ℝ) / 10)
    + min 200 (((f.total_transactions.getD 0 : ℚ) : ℝ) / 5)
    + min 200 (Real.log (1 + (((f.total_eth_sent.getD 0 + f.total_eth_received.getD 0 : ℚ)) : ℝ)) * 20)
    + min 150 (((f.unique_counterparties.getD 0 : ℚ) : ℝ) * 2
        + ((f.counterparty_entropy.getD 0 : ℚ) : ℝ) * 10)
    + min 100 (((f.contract_interactions.getD 0 : ℚ) : ℝ) / 2)
    + ((recentActivityBonus (f.days_since_last_tx.getD 365) : ℚ) : ℝ)
    - ((f.failed_tx_ratio.getD 0 : ℚ) : ℝ) * 200
    + min 100 (((f.avg_tx_per_month.getD 0 : ℚ) : ℝ) * 10)
    + ((cardBonus cardInfo : ℚ) : ℝ)
  max 0 (min 1000 score)

/-- Lines 422-494: the legacy (non-scorecard) scoring routine.  After the
`if not features: return 0.0` guard it assigns its components into a local
`score`, clamps it (line 494), and then ends without a `return`, so Python
returns `None`; `legacy_score_value` is the value that is discarded. -/
noncomputable def calculate_credit_score (f : Features) (cardInfo : Option CardInfo) :
    Option ℝ :=
  if featIsEmpty f then some 0
  else
    let score := legacy_score_value f cardInfo
    none

/-- Missing-column errors surface as pandas/Python exceptions: the explicit
`ValueError` of lines 36-39 (the spec's `SchemaError`), and the `KeyError`
a bare `df[col]` access raises when the column does not exist. -/
inductive PandasError where
  | schemaError (missing : List String)
  | keyError (col : String)
  deriving DecidableEq, Repr

/-- Lines 36-38: the required columns absent from the DataFrame, in the
order the list comprehension scans them. -/
def requiredMissing (txs : List RawTx) : List String :=
  (if colTimeStamp txs then [] else ["timeStamp"])
  ++ (if colValue txs then [] else ["value"])
  ++ (if colFrom txs then [] else ["from"])
  ++ (if colTo txs then [] else ["to"])

/-- Lines 53-54: `df[col].astype(str).str.lower()` — a missing value is the
float `nan`, which `astype(str)` renders as the string `"nan"` before
lowercasing, so no `NaN` survives in the address columns. -/
def lowerStr (s : String) : String := ⟨s.data.map Char.toLower⟩

/-- The lowercased `from` column entry of a record. -/
def effFrom (tx : RawTx) : String := lowerStr (tx.fromAddr.getD "nan")

/-- The lowercased `to` column entry of a record. -/
def effTo (tx : RawTx) : String := lowerStr (tx.toAddr.getD "nan")

/-- `wei_to_eth` (lines 63-64 and 282-283): division by `1e18`. -/
def weiToEth (q : ℚ) : ℚ := q / 10 ^ 18

/-- `series.sum()` over the `value` column: pandas skips `NaN` and returns 0
for an all-`NaN` or empty selection. -/
def sumValues (txs : List RawTx) : ℚ :=
  txs.foldl (fun s tx => s + tx.value.getD 0) 0

/-- `(df['timeStamp'].max() - df['timeStamp'].min()).days` over the parsed
timestamps (line 59); `Timedelta.days` floors the span to whole days. -/
def ageDays (tss : List ℤ) : ℤ :=
  match tss.max?, tss.min? with
  | some tMax, some tMin => Int.fdiv (tMax - tMin) 86400
  | _, _ => 0

/-- The features of lines 56-70 that the claims reference. -/
structure FeatOut where
  account_age_days : ℤ
  total_transactions : ℕ
  total_eth_sent : ℚ
  total_eth_received : ℚ
  deriving DecidableEq, Repr

/-- `extract_features` either returns the empty dict `{}` (line 33) or a
populated feature dict. -/
inductive ExtractResult where
  | empty
  | features (f : FeatOut)
  deriving DecidableEq, Repr

/-- Lines 14-70 of `extract_features`: the `df.empty` guard, the required-field
check (lines 35-39, raising `ValueError`), the unguarded `df['input']` access
of line 82 (raising `KeyError` when no record has the key), and the basic and
ETH-flow features of lines 56-70.  The remaining ~40 features of the source
are not referenced by any claim and are not embedded. -/
def extract_features (txs : List RawTx) (wallet : String) :
    Except PandasError ExtractResult :=
  if dfEmpty txs then .ok .empty
  else if requiredMissing txs ≠ [] then .error (.schemaError (requiredMissing txs))
  else if colInput txs = false then .error (.keyError "input")
  else
    .ok (.features
      { account_age_days := ageDays (txs.filterMap (fun tx => tx.timeStamp))
        total_transactions := txs.length
        total_eth_sent := weiToEth (sumValues (txs.filter (fun tx => effFrom tx == wallet)))
        total_eth_received := weiToEth (sumValues (txs.filter (fun tx => effTo tx == wallet))) })

/-- The single transaction of the spec's scenario (§8) and of the repo's own
`test_extract_features_minimal`: sender is the subject, value `10^18` wei,
error flag 0. -/
def txSingleSent : RawTx :=
  { timeStamp := some 1609459200
    value := some 1000000000000000000
    fromAddr := some "0xabc"
    toAddr := some "0xdef"
    input := some ""
    isError := some 0
    contractAddress := none
    gasPrice := none }

/-- A record with every key absent (the dict `{}` as a list element). -/
def blankTx : RawTx :=
  { timeStamp := none, value := none, fromAddr := none, toAddr := none,
    input := none, isError := none, contractAddress := none, gasPrice := none }






/-- Days since the Unix epoch of a timestamp in seconds (floor). -/
def daysFromSecs (ts : ℤ) : ℤ := Int.fdiv ts 86400

/-- Civil date (year, month, day) of a day count since 1970-01-01, the
standard era-based conversion used by datetime libraries. -/
def civilFromDays (z0 : ℤ) : ℤ × ℤ × ℤ :=
  let z := z0 + 719468
  let era := Int.fdiv z 146097
  let doe := z - era * 146097
  let yoe := Int.fdiv (doe - Int.fdiv doe 1460 + Int.fdiv doe 36524 - Int.fdiv doe 146096) 365
  let y := yoe + era * 400
  let doy := doe - (365 * yoe + Int.fdiv yoe 4 - Int.fdiv yoe 100)
  let mp := Int.fdiv (5 * doy + 2) 153
  let d := doy - Int.fdiv (153 * mp + 2) 5 + 1
  let m := mp + (if mp < 10 then 3 else -9)
  (y + (if m ≤ 2 then 1 else 0), m, d)

/-- `dt.to_period('M')` as an ordinal: months since year 0. -/
def monthKey (ts : ℤ) : ℤ :=
  let c := civilFromDays (daysFromSecs ts)
  c.1 * 12 + (c.2.1 - 1)

/-- `dt.to_period('W')` as an ordinal: pandas weekly periods run Monday
through Sunday; `1970-01-01` (day 0) was a Thursday, so shifting by 3 days
aligns the floor division on Monday boundaries. -/
def weekKey (ts : ℤ) : ℤ := Int.fdiv (daysFromSecs ts + 3) 7

/-- `dt.hour`. -/
def hourOf (ts : ℤ) : ℤ := Int.fdiv (Int.emod ts 86400) 3600

/-- `dt.dayofweek`: Monday = 0 … Sunday = 6. -/
def weekdayOf (ts : ℤ) : ℤ := Int.emod (daysFromSecs ts + 3) 7

/-- Insert a key into an ascending duplicate-free list, keeping it ascending
and duplicate-free. -/
def insertKey (x : ℤ) : List ℤ → List ℤ
  | [] => [x]
  | y :: ys => if x < y then x :: y :: ys else if x = y then y :: ys else y :: insertKey x ys

/-- `sorted(df[col].unique())`: the distinct keys in ascending order. -/
def sortedKeys (l : List ℤ) : List ℤ := l.foldr insertKey []

/-- The distinct month periods of the transactions, ascending
(line 292, `unique_months`). -/
def monthKeys (txs : List RawTx) : List ℤ :=
  sortedKeys (txs.filterMap (fun tx => tx.timeStamp.map monthKey))

/-- The distinct week periods of the transactions, ascending
(line 323, `unique_weeks`). -/
def weekKeys (txs : List RawTx) : List ℤ :=
  sortedKeys (txs.filterMap (fun tx => tx.timeStamp.map weekKey))

/-- `isError` column after lines 277-280: when no record carries the key the
whole column is the constant 0, otherwise per-record values (missing → NaN). -/
def effIsError (colErr : Bool) (tx : RawTx) : Option ℚ :=
  if colErr then tx.isError else some 0

/-- `series.mean()` over the `value` column: NaN-skipping; `none` when no
value parses (pandas returns NaN). -/
def meanValue (txs : List RawTx) : Option ℚ :=
  let vs := txs.filterMap (fun tx => tx.value)
  if vs.length = 0 then none else some (vs.foldl (fun a b => a + b) 0 / vs.length)

/-- `set(sent['to'].dropna()) | set(recv['from'].dropna())` — the address
columns were already `astype(str)`-coerced, so `dropna` removes nothing and
a missing address participates as the string `"nan"`. -/
def uniqueCps (sent recv : List RawTx) : ℕ :=
  ((sent.map effTo) ++ (recv.map effFrom)).dedup.length

/-- One monthly bucket (lines 294-315).  `month` holds the period ordinal
that `str(month)` formats. -/
structure MonthlyEntry where
  month : ℤ
  tx_count : ℕ
  tx_sent : ℕ
  tx_received : ℕ
  eth_sent : ℚ
  eth_received : ℚ
  net_eth : ℚ
  unique_counterparties : ℕ
  avg_tx_value : Option ℚ
  failed_tx : ℕ
  deriving DecidableEq, Repr

/-- One weekly bucket (lines 325-340). -/
structure WeeklyEntry where
  week : ℤ
  tx_count : ℕ
  eth_volume : ℚ
  unique_counterparties : ℕ
  deriving DecidableEq, Repr

/-- One daily-activity point (lines 353-356); `date` is the day ordinal that
`str(date)` formats. -/
structure DailyEntry where
  date : ℤ
  count : ℕ
  deriving DecidableEq, Repr

/-- One hourly-distribution point (lines 364-367). -/
structure HourEntry where
  hour : ℤ
  count : ℕ
  deriving DecidableEq, Repr

/-- One weekday-distribution point (lines 372-375). -/
structure WeekdayEntry where
  day : String
  day_num : ℤ
  count : ℕ
  deriving DecidableEq, Repr

/-- One value-distribution bucket (lines 385-388). -/
structure BucketEntry where
  bucket : String
  count : ℕ
  deriving DecidableEq, Repr

/-- One cumulative point (lines 410-416). -/
structure CumEntry where
  month : ℤ
  cumulative_tx : ℕ
  cumulative_eth_in : ℚ
  cumulative_eth_out : ℚ
  cumulative_net : ℚ
  deriving DecidableEq, Repr

/-- The dict returned by `extract_time_series_data`: its keys are fixed
strings, so it is modelled as a record of `Option` sequences where `none`
means the key is absent from the returned dict. -/
structure TimeSeriesResult where
  monthly : Option (List MonthlyEntry)
  weekly : Option (List WeeklyEntry)
  daily_activity : Option (List DailyEntry)
  hourly_distribution : Option (List HourEntry)
  weekday_distribution : Option (List WeekdayEntry)
  value_distribution : Option (List BucketEntry)
  cumulative : Option (List CumEntry)
  deriving DecidableEq, Repr

/-- Lines 261-268: the dict returned for an empty DataFrame — only five keys;
`value_distribution` and `cumulative` are not among them. -/
def emptyTimeSeries : TimeSeriesResult :=
  { monthly := some []
    weekly := some []
    daily_activity := some []
    hourly_distribution := some []
    weekday_distribution := some []
    value_distribution := none
    cumulative := none }

/-- The transactions of one month bucket (line 295). -/
def monthGroup (txs : List RawTx) (k : ℤ) : List RawTx :=
  txs.filter (fun tx => tx.timeStamp.map monthKey == some k)

/-- One entry of `monthly_data` (lines 294-315). -/
def monthlyEntry (colErr : Bool) (wallet : String) (txs : List RawTx) (k : ℤ) :
    MonthlyEntry :=
  let g := monthGroup txs k
  let sent := g.filter (fun tx => effFrom tx == wallet)
  let recv := g.filter (fun tx => effTo tx == wallet)
  { month := k
    tx_count := g.length
    tx_sent := sent.length
    tx_received := recv.length
    eth_sent := weiToEth (sumValues sent)
    eth_received := weiToEth (sumValues recv)
    net_eth := weiToEth (sumValues recv) - weiToEth (sumValues sent)
    unique_counterparties := uniqueCps sent recv
    avg_tx_value := (meanValue g).map weiToEth
    failed_tx := (g.filter (fun tx => effIsError colErr tx == some 1)).length }

/-- The full `monthly_data` list, ascending by month (before the `[-24:]`
truncation of line 317). -/
def monthlyFull (txs : List RawTx) (wallet : String) : List MonthlyEntry :=
  (monthKeys txs).map (monthlyEntry (colIsError txs) wallet txs)

/-- One entry of `weekly_data` (lines 325-340). -/
def weeklyEntry (wallet : String) (txs : List RawTx) (k : ℤ) : WeeklyEntry :=
  let g := txs.filter (fun tx => tx.timeStamp.map weekKey == some k)
  let sent := g.filter (fun tx => effFrom tx == wallet)
  let recv := g.filter (fun tx => effTo tx == wallet)
  { week := k
    tx_count := g.length
    eth_volume := weiToEth (sumValues g)
    unique_counterparties := uniqueCps sent recv }

/-- The full `weekly_data` list, ascending by week (before the `[-52:]`
truncation of line 342). -/
def weeklyFull (txs : List RawTx) (wallet : String) : List WeeklyEntry :=
  (weekKeys txs).map (weeklyEntry wallet txs)

/-- `lst[-n:]`: the last `n` elements (all of them when fewer). -/
def lastN (n : ℕ) (l : List α) : List α := l.drop (l.length - n)

/-- Lines 344-360: daily activity over the trailing 365 days of `now`. -/
def dailyActivity (txs : List RawTx) (now : ℤ) : List DailyEntry :=
  let cutoff := now - 365 * 86400
  let recent := txs.filter (fun tx =>
    match tx.timeStamp with | some t => decide (cutoff ≤ t) | none => false)
  (sortedKeys (recent.filterMap (fun tx => tx.timeStamp.map daysFromSecs))).map
    (fun d =>
      { date := d
        count := (recent.filter (fun tx => tx.timeStamp.map daysFromSecs == some d)).length })

/-- Lines 362-367: all-time histogram by hour of day, ascending. -/
def hourlyDistribution (txs : List RawTx) : List HourEntry :=
  (sortedKeys (txs.filterMap (fun tx => tx.timeStamp.map hourOf))).map
    (fun h =>
      { hour := h
        count := (txs.filter (fun tx => tx.timeStamp.map hourOf == some h)).length })

/-- Line 370: `weekday_names`. -/
def weekdayNames : List String :=
  ["Monday", "Tuesday", "Wednesday", "Thursday", "Friday", "Saturday", "Sunday"]

/-- Lines 369-375: all-time histogram by weekday, ascending. -/
def weekdayDistribution (txs : List RawTx) : List WeekdayEntry :=
  (sortedKeys (txs.filterMap (fun tx => tx.timeStamp.map weekdayOf))).map
    (fun d =>
      { day := weekdayNames.getD d.toNat ""
        day_num := d
        count := (txs.filter (fun tx => tx.timeStamp.map weekdayOf == some d)).length })

/-- Line 379: the lower bucket boundaries; the eighth boundary is `inf`. -/
def bucketLos : List ℚ := [0, 1/1000, 1/100, 1/10, 1, 10, 100]

/-- Line 380: the bucket labels. -/
def bucketLabels : List String :=
  ["<0.001", "0.001-0.01", "0.01-0.1", "0.1-1", "1-10", "10-100", ">100"]

/-- Line 384: `(eth_values >= buckets[i]) & (eth_values < buckets[i+1])` for
one record.  A NaN value satisfies neither comparison; `buckets[7]` is `inf`,
which every coerced value is below, so the last bucket has no upper test. -/
def inBucket (i : ℕ) (tx : RawTx) : Bool :=
  match tx.value with
  | none => false
  | some v =>
    decide (bucketLos.getD i 0 ≤ v / 10 ^ 18) &&
    (if i < 6 then decide (v / 10 ^ 18 < bucketLos.getD (i + 1) 0) else true)

/-- Lines 377-390: the seven-bucket value distribution. -/
def valueDistribution (txs : List RawTx) : List BucketEntry :=
  (List.range 7).map (fun i =>
    { bucket := bucketLabels.getD i ""
      count := (txs.filter (inBucket i)).length })

/-- Lines 396-416: cumulative running totals walking the months in ascending
order (sorting by timestamp first does not change any per-month sum). -/
def cumAux (wallet : String) (txs : List RawTx) :
    List ℤ → ℕ → ℚ → ℚ → List CumEntry
  | [], _, _, _ => []
  | k :: ks, rtx, rin, rout =>
    let g := monthGroup txs k
    let rtx2 := rtx + g.length
    let rin2 := rin + weiToEth (sumValues (g.filter (fun tx => effTo tx == wallet)))
    let rout2 := rout + weiToEth (sumValues (g.filter (fun tx => effFrom tx == wallet)))
    { month := k, cumulative_tx := rtx2, cumulative_eth_in := rin2,
      cumulative_eth_out := rout2, cumulative_net := rin2 - rout2 }
      :: cumAux wallet txs ks rtx2 rin2 rout2

/-- Lines 392-418: the cumulative series. -/
def cumulativeSeries (txs : List RawTx) (wallet : String) : List CumEntry :=
  cumAux wallet txs (monthKeys txs) 0 0 0

/-- Lines 244-420: `extract_time_series_data`.  The empty-DataFrame guard
returns the five-key dict of lines 261-268; otherwise the per-column accesses
of lines 271-275 raise `KeyError` for a missing column, and the seven
sequences are assembled in source order. -/
def extract_time_series_data (txs : List RawTx) (wallet : String) (now : ℤ) :
    Except PandasError TimeSeriesResult :=
  if dfEmpty txs then .ok emptyTimeSeries
  else if colTimeStamp txs = false then .error (.keyError "timeStamp")
  else if colValue txs = false then .error (.keyError "value")
  else if colFrom txs = false then .error (.keyError "from")
  else if colTo txs = false then .error (.keyError "to")
  else
    .ok
      { monthly := some (lastN 24 (monthlyFull txs wallet))
        weekly := some (lastN 52 (weeklyFull txs wallet))
        daily_activity := some (dailyActivity txs now)
        hourly_distribution := some (hourlyDistribution txs)
        weekday_distribution := some (weekdayDistribution txs)
        value_distribution := some (valueDistribution txs)
        cumulative := some (cumulativeSeries txs wallet) }

/-- The `monthly` sequence of a call's result ( `[]` when the call raised ). -/
def tsMonthly (e : Except PandasError TimeSeriesResult) : List MonthlyEntry :=
  match e with
  | .ok r => r.monthly.getD []
  | .error _ => []

/-- The `weekly` sequence of a call's result ( `[]` when the call raised ). -/
def tsWeekly (e : Except PandasError TimeSeriesResult) : List WeeklyEntry :=
  match e with
  | .ok r => r.weekly.getD []
  | .error _ => []

/-- The `value_distribution` sequence of a call's result. -/
def tsValueDist (e : Except PandasError TimeSeriesResult) : List BucketEntry :=
  match e with
  | .ok r => r.value_distribution.getD []
  | .error _ => []

lemma binAccountAge_bounds (v : ℚ) : 54 ≤ binAccountAge v ∧ binAccountAge v ≤ 88 := by
  unfold binAccountAge binAccountAgeMonths
  split_ifs <;> norm_num

lemma binAvgTxValue_bounds (v : ℚ) : 25 ≤ binAvgTxValue v ∧ binAvgTxValue v ≤ 77 := by
  unfold binAvgTxValue
  split_ifs <;> norm_num

lemma binTxCount6m_bounds (v : ℚ) : 57 ≤ binTxCount6m v ∧ binTxCount6m v ≤ 131 := by
  unfold binTxCount6m
  split_ifs <;> norm_num

lemma binUniqueCps_bounds (v : ℚ) : 49 ≤ binUniqueCps v ∧ binUniqueCps v ≤ 78 := by
  unfold binUniqueCps
  split_ifs <;> norm_num

lemma binContract_bounds (v : ℚ) : 36 ≤ binContract v ∧ binContract v ≤ 84 := by
  unfold binContract
  split_ifs <;> norm_num

lemma binLargestOut_bounds (v : ℚ) : 57 ≤ binLargestOut v ∧ binLargestOut v ≤ 70 := by
  unfold binLargestOut
  split_ifs <;> norm_num

lemma binMonthsWithTx_bounds (v : ℚ) : 59 ≤ binMonthsWithTx v ∧ binMonthsWithTx v ≤ 77 := by
  unfold binMonthsWithTx
  split_ifs <;> norm_num

lemma binSkewness_bounds (o : Option ℚ) : 46 ≤ binSkewness o ∧ binSkewness o ≤ 72 := by
  cases o with
  | none => norm_num [binSkewness]
  | some v =>
    simp only [binSkewness]
    split_ifs <;> norm_num

lemma binTotalTx_bounds (v : ℚ) : 44 ≤ binTotalTx v ∧ binTotalTx v ≤ 71 := by
  unfold binTotalTx
  split_ifs <;> norm_num

lemma monthsOfDays_mono {x y : ℚ} (h : x ≤ y) : monthsOfDays x ≤ monthsOfDays y := by
  unfold monthsOfDays
  split_ifs <;> linarith

lemma binAccountAgeMonths_mono {x y : ℚ} (h : x ≤ y) :
    binAccountAgeMonths x ≤ binAccountAgeMonths y := by
  unfold binAccountAgeMonths
  split_ifs <;> linarith

lemma binAccountAge_mono {x y : ℚ} (h : x ≤ y) : binAccountAge x ≤ binAccountAge y :=
  binAccountAgeMonths_mono (monthsOfDays_mono h)

lemma binAvgTxValue_mono {x y : ℚ} (h : x ≤ y) : binAvgTxValue x ≤ binAvgTxValue y := by
  unfold binAvgTxValue
  split_ifs <;> linarith

lemma binTxCount6m_mono {x y : ℚ} (h : x ≤ y) : binTxCount6m x ≤ binTxCount6m y := by
  unfold binTxCount6m
  split_ifs <;> linarith

lemma binUniqueCps_mono {x y : ℚ} (h : x ≤ y) : binUniqueCps x ≤ binUniqueCps y := by
  unfold binUniqueCps
  split_ifs <;> linarith

lemma binContract_mono {x y : ℚ} (h : x ≤ y) : binContract x ≤ binContract y := by
  unfold binContract
  split_ifs <;> linarith

lemma binLargestOut_mono {x y : ℚ} (h : x ≤ y) : binLargestOut x ≤ binLargestOut y := by
  unfold binLargestOut
  split_ifs <;> linarith

lemma binMonthsWithTx_mono {x y : ℚ} (h : x ≤ y) :
    binMonthsWithTx x ≤ binMonthsWithTx y := by
  unfold binMonthsWithTx
  split_ifs <;> linarith

lemma binSkewness_mono {x y : ℚ} (h : x ≤ y) :
    binSkewness (some x) ≤ binSkewness (some y) := by
  simp only [binSkewness]
  split_ifs <;> linarith

lemma binTotalTx_mono {x y : ℚ} (h : x ≤ y) : binTotalTx x ≤ binTotalTx y := by
  unfold binTotalTx
  split_ifs <;> linarith

/-- C1 counterexample: on the spec's scenario feature set the scorecard
evaluator does not return 606 — the scenario's bin points for `tx_count_6m`
(131, not 93), `contract_interactions` (51, not 66), `largest_outgoing_tx`
(62, not 70), `months_with_tx` (66, not 68), `tx_value_skewness` (62, not 67)
and `total_transactions` (59, not 61) disagree with the code's bins. -/
theorem scorecard_scenario_not_606 :
    calculate_scorecard_credit_score scenarioFeatures ≠ 606 := by
  norm_num [calculate_scorecard_credit_score, scenarioFeatures, binAccountAge,
    binAccountAgeMonths, monthsOfDays, binAvgTxValue, binTxCount6m, binUniqueCps,
    binContract, binLargestOut, binMonthsWithTx, binSkewness, binTotalTx]

/-- C1 (amended): on the feature set `{account_age_days: 600, avg_tx_value:
0.02, tx_count_6m: 5, unique_counterparties: 10, contract_interactions: 3,
largest_outgoing_tx: 50, months_with_tx: 20, tx_value_skewness: 10,
total_transactions: 100}` the scorecard evaluator returns
57+64+131+60+51+62+66+62+59 = 612. -/
theorem scorecard_scenario_score_612 :
    calculate_scorecard_credit_score scenarioFeatures = 612 := by
  norm_num [calculate_scorecard_credit_score, scenarioFeatures, binAccountAge,
    binAccountAgeMonths, monthsOfDays, binAvgTxValue, binTxCount6m, binUniqueCps,
    binContract, binLargestOut, binMonthsWithTx, binSkewness, binTotalTx]

/-- C2 counterexample: a feature set in the top bin of every feature scores
748, so the scorecard's least upper bound is not approximately 708. -/
theorem scorecard_exceeds_708 :
    calculate_scorecard_credit_score maxBinFeatures = 748 ∧
    ¬ calculate_scorecard_credit_score maxBinFeatures ≤ 708 := by
  constructor <;>
  norm_num [calculate_scorecard_credit_score, maxBinFeatures, binAccountAge,
    binAccountAgeMonths, monthsOfDays, binAvgTxValue, binTxCount6m, binUniqueCps,
    binContract, binLargestOut, binMonthsWithTx, binSkewness, binTotalTx]

/-- C2 (amended): for every feature mapping the scorecard evaluator's value
is bounded above by the sum of the maximum bin point values of the nine
scorecard features, 88+77+131+78+84+70+77+72+71 = 748 (not ≈708); no
separate clamping is applied. -/
theorem scorecard_bounded_by_max_bins (f : Features) :
    calculate_scorecard_credit_score f ≤ 88 + 77 + 131 + 78 + 84 + 70 + 77 + 72 + 71 := by
  unfold calculate_scorecard_credit_score
  have h1 := binAccountAge_bounds (f.account_age_days.getD 0)
  have h2 := binAvgTxValue_bounds (f.avg_tx_value.getD 0)
  have h3 := binTxCount6m_bounds (f.tx_count_6m.getD 0)
  have h4 := binUniqueCps_bounds (f.unique_counterparties.getD 0)
  have h5 := binContract_bounds (f.contract_interactions.getD 0)
  have h6 := binLargestOut_bounds (f.largest_outgoing_tx.getD 0)
  have h7 := binMonthsWithTx_bounds (f.months_with_tx.getD 0)
  have h8 := binSkewness_bounds f.tx_value_skewness
  have h9 := binTotalTx_bounds (f.total_transactions.getD 0)
  linarith [h1.2, h2.2, h3.2, h4.2, h5.2, h6.2, h7.2, h8.2, h9.2]

/-- C9: every scorecard score lies in `[427, 748]`; the empty/default feature
mapping attains 427 = 54+25+57+49+36+57+59+46+44 exactly, and 748 =
88+77+131+78+84+70+77+72+71 is attained in the top bins. -/
theorem scorecard_range :
    (∀ f : Features, 427 ≤ calculate_scorecard_credit_score f ∧
      calculate_scorecard_credit_score f ≤ 748) ∧
    calculate_scorecard_credit_score emptyFeatures = 427 ∧
    calculate_scorecard_credit_score maxBinFeatures = 748 := by
  refine ⟨fun f => ?_, ?_, ?_⟩
  · unfold calculate_scorecard_credit_score
    have h1 := binAccountAge_bounds (f.account_age_days.getD 0)
    have h2 := binAvgTxValue_bounds (f.avg_tx_value.getD 0)
    have h3 := binTxCount6m_bounds (f.tx_count_6m.getD 0)
    have h4 := binUniqueCps_bounds (f.unique_counterparties.getD 0)
    have h5 := binContract_bounds (f.contract_interactions.getD 0)
    have h6 := binLargestOut_bounds (f.largest_outgoing_tx.getD 0)
    have h7 := binMonthsWithTx_bounds (f.months_with_tx.getD 0)
    have h8 := binSkewness_bounds f.tx_value_skewness
    have h9 := binTotalTx_bounds (f.total_transactions.getD 0)
    constructor <;> linarith [h1.1, h1.2, h2.1, h2.2, h3.1, h3.2, h4.1, h4.2,
      h5.1, h5.2, h6.1, h6.2, h7.1, h7.2, h8.1, h8.2, h9.1, h9.2]
  · norm_num [calculate_scorecard_credit_score, emptyFeatures, binAccountAge,
      binAccountAgeMonths, monthsOfDays, binAvgTxValue, binTxCount6m, binUniqueCps,
      binContract, binLargestOut, binMonthsWithTx, binSkewness, binTotalTx]
  · norm_num [calculate_scorecard_credit_score, maxBinFeatures, binAccountAge,
      binAccountAgeMonths, monthsOfDays, binAvgTxValue, binTxCount6m, binUniqueCps,
      binContract, binLargestOut, binMonthsWithTx, binSkewness, binTotalTx]

/-- C10: the scorecard evaluator is monotone non-decreasing in each of its
nine input features — replacing one feature's numeric value by a larger one
while the other features stay fixed never lowers the score. -/
theorem scorecard_monotone (f : Features) (x y : ℚ) (hxy : x ≤ y) :
    calculate_scorecard_credit_score { f with account_age_days := some x } ≤
      calculate_scorecard_credit_score { f with account_age_days := some y } ∧
    calculate_scorecard_credit_score { f with avg_tx_value := some x } ≤
      calculate_scorecard_credit_score { f with avg_tx_value := some y } ∧
    calculate_scorecard_credit_score { f with tx_count_6m := some x } ≤
      calculate_scorecard_credit_score { f with tx_count_6m := some y } ∧
    calculate_scorecard_credit_score { f with unique_counterparties := some x } ≤
      calculate_scorecard_credit_score { f with unique_counterparties := some y } ∧
    calculate_scorecard_credit_score { f with contract_interactions := some x } ≤
      calculate_scorecard_credit_score { f with contract_interactions := some y } ∧
    calculate_scorecard_credit_score { f with largest_outgoing_tx := some x } ≤
      calculate_scorecard_credit_score { f with largest_outgoing_tx := some y } ∧
    calculate_scorecard_credit_score { f with months_with_tx := some x } ≤
      calculate_scorecard_credit_score { f with months_with_tx := some y } ∧
    calculate_scorecard_credit_score { f with tx_value_skewness := some x } ≤
      calculate_scorecard_credit_score { f with tx_value_skewness := some y } ∧
    calculate_scorecard_credit_score { f with total_transactions := some x } ≤
      calculate_scorecard_credit_score { f with total_transactions := some y } := by
  refine ⟨?_, ?_, ?_, ?_, ?_, ?_, ?_, ?_, ?_⟩ <;>
    simp only [calculate_scorecard_credit_score, Option.getD_some] <;>
    first
    | linarith [binAccountAge_mono hxy]
    | linarith [binAvgTxValue_mono hxy]
    | linarith [binTxCount6m_mono hxy]
    | linarith [binUniqueCps_mono hxy]
    | linarith [binContract_mono hxy]
    | linarith [binLargestOut_mono hxy]
    | linarith [binMonthsWithTx_mono hxy]
    | linarith [binSkewness_mono hxy]
    | linarith [binTotalTx_mono hxy]

/-- Witness for C10 at a concrete input. -/
theorem scorecard_monotone_witness :
    (1 : ℚ) ≤ 2 ∧
    calculate_scorecard_credit_score { emptyFeatures with account_age_days := some 1 } ≤
      calculate_scorecard_credit_score { emptyFeatures with account_age_days := some 2 } ∧
    calculate_scorecard_credit_score { emptyFeatures with avg_tx_value := some 1 } ≤
      calculate_scorecard_credit_score { emptyFeatures with avg_tx_value := some 2 } ∧
    calculate_scorecard_credit_score { emptyFeatures with tx_count_6m := some 1 } ≤
      calculate_scorecard_credit_score { emptyFeatures with tx_count_6m := some 2 } ∧
    calculate_scorecard_credit_score { emptyFeatures with unique_counterparties := some 1 } ≤
      calculate_scorecard_credit_score { emptyFeatures with unique_counterparties := some 2 } ∧
    calculate_scorecard_credit_score { emptyFeatures with contract_interactions := some 1 } ≤
      calculate_scorecard_credit_score { emptyFeatures with contract_interactions := some 2 } ∧
    calculate_scorecard_credit_score { emptyFeatures with largest_outgoing_tx := some 1 } ≤
      calculate_scorecard_credit_score { emptyFeatures with largest_outgoing_tx := some 2 } ∧
    calculate_scorecard_credit_score { emptyFeatures with months_with_tx := some 1 } ≤
      calculate_scorecard_credit_score { emptyFeatures with months_with_tx := some 2 } ∧
    calculate_scorecard_credit_score { emptyFeatures with tx_value_skewness := some 1 } ≤
      calculate_scorecard_credit_score { emptyFeatures with tx_value_skewness := some 2 } ∧
    calculate_scorecard_credit_score { emptyFeatures with total_transactions := some 1 } ≤
      calculate_scorecard_credit_score { emptyFeatures with total_transactions := some 2 } :=
  ⟨by norm_num, scorecard_monotone emptyFeatures 1 2 (by norm_num)⟩

/-- C8: the legacy scoring routine never returns its computed score — for any
non-empty feature dict the call evaluates `legacy_score_value` into a local
and then returns `None`; only the empty-dict branch returns 0.0. -/
theorem legacy_score_never_returned (f : Features) (ci : Option CardInfo) :
    (featIsEmpty f = false → calculate_credit_score f ci = none ∧
      calculate_credit_score f ci ≠ some (legacy_score_value f ci)) ∧
    (featIsEmpty f = true → calculate_credit_score f ci = some 0) := by
  constructor <;> intro h <;> simp [calculate_credit_score, h]

/-- Witness for C8 at a concrete non-empty feature dict. -/
theorem legacy_score_never_returned_witness :
    featIsEmpty scenarioFeatures = false ∧
    calculate_credit_score scenarioFeatures none = none :=
  ⟨rfl, ((legacy_score_never_returned scenarioFeatures none).1 rfl).1⟩

/-- C7: a single transaction whose sender is the subject address, with value
`10^18` wei and error flag 0, yields `total_transactions = 1`,
`total_eth_sent = 1.0`, `total_eth_received = 0.0`, `account_age_days = 0`. -/
theorem extract_features_single_sent_tx :
    extract_features [txSingleSent] "0xabc" =
      .ok (.features
        { account_age_days := 0, total_transactions := 1,
          total_eth_sent := 1, total_eth_received := 0 }) := by
  have hf : (lowerStr "0xabc" == "0xabc") = true := by decide
  have hd : (lowerStr "0xdef" == "0xabc") = false := by decide
  norm_num [extract_features, dfEmpty, anyColumn, colTimeStamp, colValue, colFrom,
    colTo, colInput, colIsError, colContractAddress, colGasPrice, requiredMissing,
    txSingleSent, ageDays, sumValues, weiToEth, effFrom, effTo, hf, hd,
    List.filterMap_cons, List.filter_cons, List.max?, List.min?, List.foldl,
    Int.zero_fdiv]

/-- C4 counterexample: a non-empty list whose single record has no keys
leaves the DataFrame with zero columns, so `df.empty` is true and
`extract_features` returns `{}` instead of raising the schema error, even
though every required field (here `timeStamp`) is absent from every record. -/
theorem extract_features_blank_records_no_error :
    extract_features [blankTx] "0xabc" = .ok .empty ∧
    ([blankTx] : List RawTx) ≠ [] ∧
    colTimeStamp [blankTx] = false := by
  refine ⟨?_, by simp, rfl⟩
  norm_num [extract_features, dfEmpty, anyColumn, colTimeStamp, colValue, colFrom,
    colTo, colInput, colIsError, colContractAddress, colGasPrice, blankTx]

/-- C4 (amended): `extract_features` raises the schema `ValueError` iff the
input list is non-empty, at least one record carries at least one key (the
DataFrame has a column), and one of the required fields {timeStamp, value,
from, to} is absent from every record; a required field absent from only
some records is tolerated, and the empty list returns the empty dict. -/
theorem extract_features_schema_error_iff (txs : List RawTx) (wallet : String) :
    ((∃ m, extract_features txs wallet = .error (.schemaError m)) ↔
      (txs ≠ [] ∧ anyColumn txs = true ∧
        (colTimeStamp txs = false ∨ colValue txs = false ∨
          colFrom txs = false ∨ colTo txs = false))) ∧
    (txs = [] → extract_features txs wallet = .ok .empty) := by
  have hreq : requiredMissing txs = [] ↔
      (colTimeStamp txs = true ∧ colValue txs = true ∧
        colFrom txs = true ∧ colTo txs = true) := by
    unfold requiredMissing
    cases hA : colTimeStamp txs <;> cases hB : colValue txs <;>
      cases hC : colFrom txs <;> cases hD : colTo txs <;> simp
  constructor
  · by_cases he : dfEmpty txs = true
    · have hcase : txs = [] ∨ anyColumn txs = false := by
        have h := he
        simp only [dfEmpty, Bool.or_eq_true, List.isEmpty_iff, Bool.not_eq_true'] at h
        exact h
      constructor
      · intro hex
        rcases hex with ⟨m, hm⟩
        simp [extract_features, he] at hm
      · rintro ⟨hne, hcol, _⟩
        rcases hcase with h1 | h1
        · exact absurd h1 hne
        · rw [hcol] at h1
          exact absurd h1 (by simp)
    · have he2 : dfEmpty txs = false := by simpa using he
      have hcase2 : ¬txs = [] ∧ anyColumn txs = true := by
        have h := he2
        simp only [dfEmpty, Bool.or_eq_false_iff, List.isEmpty_eq_false,
          Bool.not_eq_false', List.isEmpty_iff] at h
        exact ⟨h.1, h.2⟩
      have hne : txs ≠ [] := hcase2.1
      have hcol : anyColumn txs = true := hcase2.2
      by_cases hm : requiredMissing txs = []
      · have hall := hreq.mp hm
        constructor
        · intro hex
          rcases hex with ⟨m, hmm⟩
          by_cases hi : colInput txs = false <;>
            simp [extract_features, he2, hm, hi] at hmm
        · rintro ⟨_, _, hbad⟩
          rcases hbad with h | h | h | h <;>
            [rw [hall.1] at h; rw [hall.2.1] at h; rw [hall.2.2.1] at h;
              rw [hall.2.2.2] at h] <;> exact absurd h (by simp)
      · constructor
        · intro _
          refine ⟨hne, hcol, ?_⟩
          by_contra hbad
          push_neg at hbad
          have h1 : colTimeStamp txs = true := by
            have := hbad.1; revert this; cases colTimeStamp txs <;> simp
          have h2 : colValue txs = true := by
            have := hbad.2.1; revert this; cases colValue txs <;> simp
          have h3 : colFrom txs = true := by
            have := hbad.2.2.1; revert this; cases colFrom txs <;> simp
          have h4 : colTo txs = true := by
            have := hbad.2.2.2; revert this; cases colTo txs <;> simp
          exact hm (hreq.mpr ⟨h1, h2, h3, h4⟩)
        · intro _
          exact ⟨requiredMissing txs, by simp [extract_features, he2, hm]⟩
  · intro h
    subst h
    rfl

/-- Witness for C4 at the empty input list. -/
theorem extract_features_schema_error_iff_witness :
    extract_features ([] : List RawTx) "0xabc" = .ok .empty :=
  (extract_features_schema_error_iff [] "0xabc").2 rfl

lemma insertKey_mem {x a : ℤ} : ∀ {l : List ℤ}, a ∈ insertKey x l → a = x ∨ a ∈ l := by
  intro l
  induction l with
  | nil =>
    intro h
    simpa [insertKey] using h
  | cons y ys ih =>
    intro h
    by_cases h1 : x < y
    · rcases by simpa [insertKey, h1] using h with h2 | h2
      · exact Or.inl h2
      · exact Or.inr (by simpa using h2)
    · by_cases h2 : x = y
      · exact Or.inr (by simpa [insertKey, h1, h2] using h)
      · rcases by simpa [insertKey, h1, h2] using h with h3 | h3
        · exact Or.inr (by simp [h3])
        · rcases ih h3 with h4 | h4
          · exact Or.inl h4
          · exact Or.inr (by simp [h4])

lemma insertKey_pairwise {x : ℤ} :
    ∀ {l : List ℤ}, l.Pairwise (· < ·) → (insertKey x l).Pairwise (· < ·) := by
  intro l
  induction l with
  | nil =>
    intro _
    simp [insertKey]
  | cons y ys ih =>
    intro hp
    rcases List.pairwise_cons.mp hp with ⟨hy, hys⟩
    by_cases h1 : x < y
    · rw [insertKey, if_pos h1]
      refine List.pairwise_cons.mpr ⟨?_, hp⟩
      intro b hb
      rcases List.mem_cons.mp hb with h2 | h2
      · exact h2 ▸ h1
      · exact lt_trans h1 (hy b h2)
    · by_cases h2 : x = y
      · rw [insertKey, if_neg h1, if_pos h2]
        exact hp
      · rw [insertKey, if_neg h1, if_neg h2]
        refine List.pairwise_cons.mpr ⟨?_, ih hys⟩
        intro b hb
        have hyx : y < x := by omega
        rcases insertKey_mem hb with h3 | h3
        · exact h3 ▸ hyx
        · exact hy b h3

lemma sortedKeys_pairwise (l : List ℤ) : (sortedKeys l).Pairwise (· < ·) := by
  induction l with
  | nil => simp [sortedKeys]
  | cons a l ih => exact insertKey_pairwise ih

lemma monthlyFull_pairwise (txs : List RawTx) (wallet : String) :
    (monthlyFull txs wallet).Pairwise (fun a b => a.month < b.month) := by
  unfold monthlyFull
  exact List.Pairwise.map _ (fun a b hab => hab) (sortedKeys_pairwise _)

lemma weeklyFull_pairwise (txs : List RawTx) (wallet : String) :
    (weeklyFull txs wallet).Pairwise (fun a b => a.week < b.week) := by
  unfold weeklyFull
  exact List.Pairwise.map _ (fun a b hab => hab) (sortedKeys_pairwise _)

lemma tsMonthly_eq (txs : List RawTx) (wallet : String) (now : ℤ) :
    tsMonthly (extract_time_series_data txs wallet now) =
      lastN 24 (monthlyFull txs wallet) ∨
    tsMonthly (extract_time_series_data txs wallet now) = [] := by
  unfold extract_time_series_data
  split_ifs <;> simp [tsMonthly, emptyTimeSeries]

lemma tsWeekly_eq (txs : List RawTx) (wallet : String) (now : ℤ) :
    tsWeekly (extract_time_series_data txs wallet now) =
      lastN 52 (weeklyFull txs wallet) ∨
    tsWeekly (extract_time_series_data txs wallet now) = [] := by
  unfold extract_time_series_data
  split_ifs <;> simp [tsWeekly, emptyTimeSeries]

lemma lastN_length_le (n : ℕ) (l : List α) : (lastN n l).length ≤ n := by
  unfold lastN
  rw [List.length_drop]
  omega

lemma lastN_suffix_lt {β : Type} (key : β → ℤ) (n : ℕ) (l : List β)
    (hp : l.Pairwise (fun a b => key a < key b)) :
    ∃ d, l = d ++ lastN n l ∧ ∀ a ∈ d, ∀ b ∈ lastN n l, key a < key b := by
  refine ⟨l.take (l.length - n), ?_, ?_⟩
  · exact (List.take_append_drop _ _).symm
  · intro a ha b hb
    rw [← List.take_append_drop (l.length - n) l] at hp
    exact (List.pairwise_append.mp hp).2.2 a ha b hb

/-- C6: the monthly series of the time-series aggregator never exceeds 24
entries and the weekly series never exceeds 52; each is the suffix of the
full chronologically ascending bucket list, so every discarded bucket is
strictly older than every retained one.  The hypothesis restricts to inputs
whose timestamps all parse (pandas would otherwise interleave a NaT bucket). -/
theorem time_series_truncation (txs : List RawTx) (wallet : String) (now : ℤ)
    (hts : ∀ tx ∈ txs, tx.timeStamp.isSome = true) :
    (tsMonthly (extract_time_series_data txs wallet now)).length ≤ 24 ∧
    (tsWeekly (extract_time_series_data txs wallet now)).length ≤ 52 ∧
    (∃ dm, monthlyFull txs wallet =
        dm ++ tsMonthly (extract_time_series_data txs wallet now) ∧
      ∀ a ∈ dm, ∀ b ∈ tsMonthly (extract_time_series_data txs wallet now),
        a.month < b.month) ∧
    (∃ dw, weeklyFull txs wallet =
        dw ++ tsWeekly (extract_time_series_data txs wallet now) ∧
      ∀ a ∈ dw, ∀ b ∈ tsWeekly (extract_time_series_data txs wallet now),
        a.week < b.week) := by
  have hm := tsMonthly_eq txs wallet now
  have hw := tsWeekly_eq txs wallet now
  refine ⟨?_, ?_, ?_, ?_⟩
  · rcases hm with h | h <;> rw [h]
    · exact lastN_length_le 24 _
    · simp
  · rcases hw with h | h <;> rw [h]
    · exact lastN_length_le 52 _
    · simp
  · rcases hm with h | h <;> rw [h]
    · exact lastN_suffix_lt (fun e : MonthlyEntry => e.month) 24 _ (monthlyFull_pairwise txs wallet)
    · exact ⟨monthlyFull txs wallet, by simp, by simp⟩
  · rcases hw with h | h <;> rw [h]
    · exact lastN_suffix_lt (fun e : WeeklyEntry => e.week) 52 _ (weeklyFull_pairwise txs wallet)
    · exact ⟨weeklyFull txs wallet, by simp, by simp⟩

/-- Witness for C6 at a concrete one-transaction input. -/
theorem time_series_truncation_witness :
    (∀ tx ∈ [txSingleSent], tx.timeStamp.isSome = true) ∧
    ((tsMonthly (extract_time_series_data [txSingleSent] "0xabc" 1609459200)).length ≤ 24 ∧
     (tsWeekly (extract_time_series_data [txSingleSent] "0xabc" 1609459200)).length ≤ 52 ∧
     (∃ dm, monthlyFull [txSingleSent] "0xabc" =
         dm ++ tsMonthly (extract_time_series_data [txSingleSent] "0xabc" 1609459200) ∧
       ∀ a ∈ dm, ∀ b ∈ tsMonthly (extract_time_series_data [txSingleSent] "0xabc" 1609459200),
         a.month < b.month) ∧
     (∃ dw, weeklyFull [txSingleSent] "0xabc" =
         dw ++ tsWeekly (extract_time_series_data [txSingleSent] "0xabc" 1609459200) ∧
       ∀ a ∈ dw, ∀ b ∈ tsWeekly (extract_time_series_data [txSingleSent] "0xabc" 1609459200),
         a.week < b.week)) :=
  ⟨by decide, time_series_truncation [txSingleSent] "0xabc" 1609459200 (by decide)⟩

/-- C5: every value-distribution bucket is half-open `[lo, hi)` — a record is
counted when its ETH value is at least the bucket's lower boundary and, for
all but the last bucket, strictly below the upper boundary; in particular a
transaction of exactly 1.0 ETH lands in the "1-10" bucket, not "0.1-1". -/
theorem value_buckets_half_open :
    (∀ (i : ℕ) (q : ℚ) (tx : RawTx), i < 7 → tx.value = some q →
      (inBucket i tx = true ↔
        (bucketLos.getD i 0 ≤ q / 10 ^ 18 ∧
          (i < 6 → q / 10 ^ 18 < bucketLos.getD (i + 1) 0)))) ∧
    tsValueDist (extract_time_series_data [txSingleSent] "0xabc" 1609459200) =
      [{ bucket := "<0.001", count := 0 }, { bucket := "0.001-0.01", count := 0 },
       { bucket := "0.01-0.1", count := 0 }, { bucket := "0.1-1", count := 0 },
       { bucket := "1-10", count := 1 }, { bucket := "10-100", count := 0 },
       { bucket := ">100", count := 0 }] := by
  constructor
  · intro i q tx hi hv
    simp only [inBucket, hv]
    by_cases h6 : i < 6 <;> simp [h6, Bool.and_eq_true, decide_eq_true_eq]
  · have hb0 : inBucket 0 txSingleSent = false := by
      norm_num [inBucket, txSingleSent, bucketLos]
    have hb1 : inBucket 1 txSingleSent = false := by
      norm_num [inBucket, txSingleSent, bucketLos]
    have hb2 : inBucket 2 txSingleSent = false := by
      norm_num [inBucket, txSingleSent, bucketLos]
    have hb3 : inBucket 3 txSingleSent = false := by
      norm_num [inBucket, txSingleSent, bucketLos]
    have hb4 : inBucket 4 txSingleSent = true := by
      norm_num [inBucket, txSingleSent, bucketLos]
    have hb5 : inBucket 5 txSingleSent = false := by
      norm_num [inBucket, txSingleSent, bucketLos]
    have hb6 : inBucket 6 txSingleSent = false := by
      norm_num [inBucket, txSingleSent, bucketLos]
    have hr : List.range 7 = [0, 1, 2, 3, 4, 5, 6] := rfl
    have hg : dfEmpty [txSingleSent] = false := by decide
    have hgT : colTimeStamp [txSingleSent] = true := by decide
    have hgV : colValue [txSingleSent] = true := by decide
    have hgF : colFrom [txSingleSent] = true := by decide
    have hgTo : colTo [txSingleSent] = true := by decide
    simp [tsValueDist, extract_time_series_data, hg, hgT, hgV, hgF, hgTo,
      valueDistribution, hr, List.filter_cons, hb0, hb1, hb2, hb3, hb4, hb5,
      hb6, bucketLabels, List.getD_cons_zero, List.getD_cons_succ]

/-- Witness for C5: the half-open membership test at the "1-10" bucket and
the concrete 1.0-ETH transaction. -/
theorem value_buckets_half_open_witness :
    inBucket 4 txSingleSent = true ↔
      (bucketLos.getD 4 0 ≤ (1000000000000000000 : ℚ) / 10 ^ 18 ∧
        (4 < 6 → (1000000000000000000 : ℚ) / 10 ^ 18 < bucketLos.getD 5 0)) :=
  value_buckets_half_open.1 4 1000000000000000000 txSingleSent (by norm_num) rfl

/-- C3 counterexample: for the empty transaction list the aggregator returns
the five-key dict of lines 261-268 — `value_distribution` and `cumulative`
are absent, so not all seven sequences are present. -/
theorem time_series_empty_missing_keys :
    extract_time_series_data [] "0xabc" 0 = .ok emptyTimeSeries ∧
    emptyTimeSeries.value_distribution = none ∧
    emptyTimeSeries.cumulative = none :=
  ⟨rfl, rfl, rfl⟩

/-- C3 (amended): for an empty transaction list `extract_time_series_data`
raises no error and returns a dict in which the five sequences monthly,
weekly, daily_activity, hourly_distribution and weekday_distribution are
present and empty, while value_distribution and cumulative are absent. -/
theorem time_series_empty_five_sequences (wallet : String) (now : ℤ) :
    extract_time_series_data [] wallet now = .ok emptyTimeSeries ∧
    emptyTimeSeries.monthly = some [] ∧
    emptyTimeSeries.weekly = some [] ∧
    emptyTimeSeries.daily_activity = some [] ∧
    emptyTimeSeries.hourly_distribution = some [] ∧
    emptyTimeSeries.weekday_distribution = some [] ∧
    emptyTimeSeries.value_distribution = none ∧
    emptyTimeSeries.cumulative = none :=
  ⟨rfl, rfl, rfl, rfl, rfl, rfl, rfl, rfl⟩
